import Mathlib

/-!
Verification of the behavioral specification of `app.py`, a small Flask +
SQLAlchemy HTTP backend with two tables (`UserModel`, `DataCaptureModel`)
and five handlers (register, login, data capture, stop data capture,
get user data).

The embedding is a pure state-passing model: the SQLite store is an
`AppState` (the two tables as lists in insertion order plus the
autoincrement counters), each handler is a function from state and parsed
request arguments to an HTTP-level result paired with the new state.
`flask_restful`'s `abort(code, message=...)` is modelled as returning
`HResult.err code message`; an unhandled Python exception inside a handler
is modelled as `HResult.err 500 "Internal Server Error"`, which is what
Flask/flask_restful produce for it. `reqparse` guarantees the handler body
only runs with all required arguments present and typed, so handler inputs
are already-parsed structures (required fields plain, optional fields
`Option String`).

Timestamps (`datetime.datetime.now(IST)` / `datetime.datetime.utcnow`) are
modelled as an abstract `Nat` clock value `now` passed to the mutating
handlers; `created_at.isoformat()` is an injective serialization of that
value, so login's `createdAt` field carries the timestamp itself.

`json.loads` is Python standard-library code, not part of this repository;
handlers that call it are parameterized by a decoder
`loads : String → Option Json` (`none` models a raised
`json.JSONDecodeError`).
-/

/-- JSON values, the decoded form of the two optional JSON-string fields
(`db.JSON` columns in `DataCaptureModel`). -/
inductive Json where
  | null : Json
  | bool (b : Bool) : Json
  | num (n : Int) : Json
  | str (s : String) : Json
  | arr (elems : List Json) : Json
  | obj (fields : List (String × Json)) : Json

/-- A row of the `user_model` table: `id` (integer primary key,
autoincrement), `username` (unique, non-null), `password` (non-null,
stored as given), `created_at` (default `datetime.datetime.now(IST)`,
modelled as an abstract clock value). -/
structure UserRow where
  id : Nat
  username : String
  password : String
  created_at : Nat
deriving DecidableEq

/-- A row of the `data_capture_model` table. `latitude`/`longitude` are
`db.Float` columns; no claim computes with them, so they are modelled as
exact numbers. `keystroke_dynamics` and `mouse_movement_patterns` are
nullable strings, `touch_interaction_patterns` and `sensor_data` are
nullable `db.JSON` columns, `created_at` defaults to
`datetime.datetime.utcnow`. -/
structure CaptureRow where
  id : Nat
  user_id : Nat
  latitude : Int
  longitude : Int
  isp : String
  os : String
  keystroke_dynamics : Option String
  mouse_movement_patterns : Option String
  touch_interaction_patterns : Option Json
  sensor_data : Option Json
  created_at : Nat

/-- The persistent store: both tables in insertion order, plus the SQLite
autoincrement counters for the two integer primary keys (rows are never
deleted, so the next id is one past the last assigned one). -/
structure AppState where
  users : List UserRow
  captures : List CaptureRow
  nextUserId : Nat
  nextCaptureId : Nat

/-- Outcome of one request as seen by the client: either a success
response with an HTTP status and a payload (the object passed through
`marshal_with` / returned as JSON), or an error status with the message
passed to `abort` (or produced by the framework for an unhandled
exception). -/
inductive HResult (α : Type) where
  | ok (status : Nat) (payload : α) : HResult α
  | err (status : Nat) (message : String) : HResult α
deriving DecidableEq

/-- Characters of the fixed allowed symbol set `[@$!%*?&]` of the password
policy regex. -/
def isSpecialChar (c : Char) : Bool :=
  c = '@' || c = '$' || c = '!' || c = '%' || c = '*' || c = '?' || c = '&'

/-- Characters of the regex character class `[A-Za-z\d@$!%*?&]` (ASCII
fragment: the claims and the repository only exercise ASCII passwords). -/
def isAllowedChar (c : Char) : Bool :=
  c.isAlpha || c.isDigit || isSpecialChar c

/-- Embedding of `is_valid_password` (app.py line 78): Python
`re.match(r'^(?=.*[A-Za-z])(?=.*\d)(?=.*[@$!%*?&])[A-Za-z\d@$!%*?&]{8,}$', password)`.
The match is anchored at both ends; in Python `$` also matches just before
one trailing newline, so one trailing `'\n'` is stripped before the
anchored character-class run is checked. The three lookaheads demand a
letter, a digit and a special character; the class run demands length at
least 8 with every character drawn from the allowed class. -/
def is_valid_password (password : String) : Bool :=
  let s := password.toList
  let core := if s.getLast? = some '\n' then s.dropLast else s
  decide (8 ≤ core.length) && core.all isAllowedChar &&
    core.any (fun c => c.isAlpha) && core.any (fun c => c.isDigit) &&
    core.any isSpecialChar

/-- Embedding of `RegisterUser.post` (app.py lines 84-101). `now` is the
value of `datetime.datetime.now(IST)` at the request. The duplicate check
is `UserModel.query.filter_by(username=...).first()`; on success the new
row gets the next autoincrement id and the state gains that row. -/
def register (st : AppState) (now : Nat) (username password : String) :
    HResult UserRow × AppState :=
  if (st.users.find? fun u => u.username == username).isSome then
    (.err 409 "Username already exists", st)
  else if !(is_valid_password password) then
    (.err 400 "Password must be at least 8 characters long, including at least one letter, one number, and one special character.", st)
  else
    let user : UserRow :=
      { id := st.nextUserId, username := username, password := password,
        created_at := now }
    (.ok 201 user,
     { st with users := st.users ++ [user], nextUserId := st.nextUserId + 1 })

/-- The fields of the login success payload (app.py lines 108-112): the
handler builds exactly `id`, `username` and `createdAt`
(`user.created_at.isoformat()`, carried here as the timestamp value). -/
structure LoginResponse where
  id : Nat
  username : String
  createdAt : Nat
deriving DecidableEq

/-- Embedding of `LoginUser.post` (app.py lines 103-115):
`UserModel.query.filter_by(username=..., password=...).first()`, i.e. the
first stored row whose username and password both equal the submitted
strings; on a match status 200 with the three response fields, otherwise
`abort(401)`. The store is read-only here. -/
def login (st : AppState) (username password : String) :
    HResult LoginResponse × AppState :=
  match st.users.find? (fun u => u.username == username && u.password == password) with
  | some user =>
      (.ok 200 { id := user.id, username := user.username,
                 createdAt := user.created_at }, st)
  | none => (.err 401 "Invalid credentials", st)

/-- The parsed body of a data-capture request, after
`data_capture_args.parse_args()`: `latitude`, `longitude`, `isp`, `os`
required; the four behavioral fields optional (`None` when absent). -/
structure CaptureArgs where
  latitude : Int
  longitude : Int
  isp : String
  os : String
  keystroke_dynamics : Option String
  mouse_movement_patterns : Option String
  touch_interaction_patterns : Option String
  sensor_data : Option String

/-- Python truthiness of `args.get(key)` for an optional string argument:
`reqparse` stores `None` for an absent argument, and the empty string is
falsy, so the `if args.get(...)` guards fire exactly for a present
non-empty string. -/
def strTruthy : Option String → Bool
  | none => false
  | some s => !(s == "")

/-- The `json.loads` step for one optional JSON-string field (app.py lines
126-132): skipped when the field is absent or empty (falsy), otherwise the
decoder runs and a decode failure is a raised `json.JSONDecodeError`,
modelled as `Except.error ()`. -/
def decodeField (loads : String → Option Json) (field : Option String) :
    Except Unit (Option Json) :=
  if strTruthy field then
    match loads (field.getD "") with
    | some j => .ok (some j)
    | none => .error ()
  else
    .ok none

/-- Embedding of `DataCapture.post` (app.py lines 117-148).
`UserModel.query.get(user_id)` is primary-key lookup; absent user aborts
with 404. The two optional JSON fields are decoded in source order (touch
first, then sensor); a raised `JSONDecodeError` is unhandled in the source,
so the framework turns it into an HTTP 500 response and nothing is
persisted. Note `args.get('keystroke_dynamics', '')` in the source still
yields `None` for an absent argument (the key is present with value
`None`, so the `''` default is never used); the row therefore stores the
optional strings exactly as parsed. On success the new row gets the next
autoincrement id and is appended to the capture table. -/
def dataCapture (loads : String → Option Json) (st : AppState) (now : Nat)
    (user_id : Nat) (args : CaptureArgs) : HResult CaptureRow × AppState :=
  match st.users.find? (fun u => u.id == user_id) with
  | none => (.err 404 "User not found", st)
  | some user =>
    match decodeField loads args.touch_interaction_patterns with
    | .error _ => (.err 500 "Internal Server Error", st)
    | .ok touch =>
      match decodeField loads args.sensor_data with
      | .error _ => (.err 500 "Internal Server Error", st)
      | .ok sensor =>
        let row : CaptureRow :=
          { id := st.nextCaptureId, user_id := user.id,
            latitude := args.latitude, longitude := args.longitude,
            isp := args.isp, os := args.os,
            keystroke_dynamics := args.keystroke_dynamics,
            mouse_movement_patterns := args.mouse_movement_patterns,
            touch_interaction_patterns := touch, sensor_data := sensor,
            created_at := now }
        (.ok 201 row,
         { st with captures := st.captures ++ [row],
                   nextCaptureId := st.nextCaptureId + 1 })

/-- Embedding of `StopDataCapture.post` (app.py lines 150-157): 404 for an
unknown user, otherwise a 200 acknowledgment message built by
`'Data capture stopped for user {}'.format(user.username)`; no store
access besides the lookup. -/
def stopDataCapture (st : AppState) (user_id : Nat) :
    HResult String × AppState :=
  match st.users.find? (fun u => u.id == user_id) with
  | none => (.err 404 "User not found", st)
  | some user =>
      (.ok 200 ("Data capture stopped for user " ++ user.username), st)

/-- Embedding of `GetUserData.get` (app.py lines 159-167): 404 for an
unknown user, otherwise
`DataCaptureModel.query.filter_by(user_id=user.id).all()` — every capture
row owned by the user, in storage order — with status 200. Read-only. -/
def getUserData (st : AppState) (user_id : Nat) :
    HResult (List CaptureRow) × AppState :=
  match st.users.find? (fun u => u.id == user_id) with
  | none => (.err 404 "User not found", st)
  | some user =>
      (.ok 200 (st.captures.filter fun c => c.user_id == user.id), st)

/-- Referential integrity of the capture store: every stored capture row
references a stored user by id. -/
def RefIntegrity (st : AppState) : Prop :=
  ∀ c ∈ st.captures, ∃ u ∈ st.users, u.id = c.user_id

/-! ### Concrete stores and requests used by the witnesses -/

/-- The empty store, as after schema creation. -/
def st0 : AppState :=
  { users := [], captures := [], nextUserId := 1, nextCaptureId := 1 }

/-- A registered user. -/
def alice : UserRow :=
  { id := 1, username := "alice", password := "Valid1Pass!", created_at := 0 }

/-- A store holding exactly the user `alice` and no captures. -/
def stA : AppState :=
  { users := [alice], captures := [], nextUserId := 2, nextCaptureId := 1 }

/-- A decoder instance for concrete evaluation. The only input any theorem
below evaluates it on is the string "\x7bnot valid json", on which Python's
`json.loads` raises `json.JSONDecodeError`, i.e. returns `none` here. -/
def loadsNone : String → Option Json := fun _ => none

/-- A parsed data-capture body whose `touch_interaction_patterns` field is
the malformed JSON string of the spec's test property. -/
def argsBadJson : CaptureArgs :=
  { latitude := 10, longitude := 20, isp := "TestISP", os := "TestOS",
    keystroke_dynamics := none, mouse_movement_patterns := none,
    touch_interaction_patterns := some "\x7bnot valid json",
    sensor_data := none }

/-- A parsed data-capture body with the two JSON-string fields absent. -/
def argsPlain : CaptureArgs :=
  { latitude := 10, longitude := 20, isp := "TestISP", os := "TestOS",
    keystroke_dynamics := some "kd", mouse_movement_patterns := none,
    touch_interaction_patterns := none, sensor_data := none }

/-- The capture row produced by submitting `argsPlain` for `alice` in
`stA` at clock value 5. -/
def rowX : CaptureRow :=
  { id := 1, user_id := 1, latitude := 10, longitude := 20,
    isp := "TestISP", os := "TestOS", keystroke_dynamics := some "kd",
    mouse_movement_patterns := none, touch_interaction_patterns := none,
    sensor_data := none, created_at := 5 }

/-- The store after that submission: `alice` plus her one capture. -/
def stB : AppState :=
  { users := [alice], captures := [rowX], nextUserId := 2, nextCaptureId := 2 }

/-! ### Theorems -/

/-- C1: for every (username, password) pair where the password satisfies
the policy and no stored user has that username, registration returns 201
with a user row, and a login against the post-registration store with the
same credentials returns 200 with the same id (and the registration
timestamp). -/
theorem register_then_login_roundtrip (st : AppState) (now : Nat) (un pw : String)
    (hvalid : is_valid_password pw = true)
    (hfresh : st.users.find? (fun u => u.username == un) = none) :
    ∃ u : UserRow,
      (register st now un pw).1 = .ok 201 u ∧
      (login (register st now un pw).2 un pw).1 =
        .ok 200 { id := u.id, username := un, createdAt := now } := by
  refine ⟨{ id := st.nextUserId, username := un, password := pw, created_at := now },
    ?_, ?_⟩
  · simp [register, hfresh, hvalid]
  · have h1 : st.users.find? (fun u => u.username == un && u.password == pw) = none := by
      rw [List.find?_eq_none] at hfresh ⊢
      intro x hx
      have := hfresh x hx
      simp only [beq_iff_eq] at this ⊢
      simp [this]
    simp [register, hfresh, hvalid, login, List.find?_append, h1]

/-- Witness for C1 at the empty store with credentials
("alice", "Valid1Pass!"). -/
theorem register_then_login_roundtrip_witness :
    ∃ u : UserRow,
      (register st0 0 "alice" "Valid1Pass!").1 = .ok 201 u ∧
      (login (register st0 0 "alice" "Valid1Pass!").2 "alice" "Valid1Pass!").1 =
        .ok 200 { id := u.id, username := "alice", createdAt := 0 } :=
  register_then_login_roundtrip st0 0 "alice" "Valid1Pass!" (by decide) (by decide)

/-- C2: a registration for an already-stored username returns 409 and
leaves the store unchanged, and registration preserves pairwise
distinctness of stored usernames, so no two stored users ever share a
username. -/
theorem register_duplicate_409 (st : AppState) (now : Nat) (un pw : String) :
    ((st.users.find? fun u => u.username == un).isSome = true →
      register st now un pw = (.err 409 "Username already exists", st)) ∧
    (st.users.Pairwise (fun u v => u.username ≠ v.username) →
      ((register st now un pw).2).users.Pairwise
        (fun u v => u.username ≠ v.username)) := by
  constructor
  · intro h
    simp [register, h]
  · intro hp
    by_cases hdup : (st.users.find? fun u => u.username == un).isSome
    · simp [register, hdup]
      exact hp
    · have hnone : st.users.find? (fun u => u.username == un) = none :=
        Option.not_isSome_iff_eq_none.mp hdup
      by_cases hv : is_valid_password pw
      · simp only [register, hnone, Option.isSome_none, Bool.false_eq_true,
          if_false, hv, Bool.not_true, if_true]
        rw [List.pairwise_append]
        refine ⟨hp, by simp, ?_⟩
        intro a ha b hb
        simp only [List.mem_singleton] at hb
        subst hb
        rw [List.find?_eq_none] at hnone
        have := hnone a ha
        simpa using this
      · have hv' : is_valid_password pw = false := by
          cases h : is_valid_password pw
          · rfl
          · exact absurd h hv
        simp [register, hnone, hv']
        exact hp

/-- Witness for C2: registering "alice" again in the store that already
holds her returns 409 and changes nothing, and the resulting store still
has pairwise-distinct usernames. -/
theorem register_duplicate_409_witness :
    register stA 0 "alice" "x" = (.err 409 "Username already exists", stA) ∧
    ((register stA 0 "alice" "x").2).users.Pairwise
      (fun u v => u.username ≠ v.username) :=
  ⟨(register_duplicate_409 stA 0 "alice" "x").1 (by decide),
   (register_duplicate_409 stA 0 "alice" "x").2 (by simp [stA])⟩

/-- C3: with an unused username, registration succeeds (201) exactly when
the password satisfies the policy regex, returns 400 with the weak-password
message otherwise, and on the named examples the policy rejects
"short1!" and "alllettersnouppercasenodigit" and accepts "Valid1Pass!". -/
theorem register_password_policy (st : AppState) (now : Nat) (un pw : String)
    (hfresh : st.users.find? (fun u => u.username == un) = none) :
    ((∃ u, (register st now un pw).1 = .ok 201 u) ↔ is_valid_password pw = true) ∧
    (is_valid_password pw = false →
      (register st now un pw).1 = .err 400 "Password must be at least 8 characters long, including at least one letter, one number, and one special character.") ∧
    is_valid_password "short1!" = false ∧
    is_valid_password "alllettersnouppercasenodigit" = false ∧
    is_valid_password "Valid1Pass!" = true := by
  have h400 : is_valid_password pw = false →
      (register st now un pw).1 = .err 400 "Password must be at least 8 characters long, including at least one letter, one number, and one special character." := by
    intro hv
    simp [register, hfresh, hv]
  refine ⟨⟨?_, ?_⟩, h400, by decide, by decide, by decide⟩
  · intro ⟨u, hu⟩
    by_contra hv
    have hv' : is_valid_password pw = false := by
      cases h : is_valid_password pw
      · rfl
      · exact absurd h hv
    rw [h400 hv'] at hu
    exact HResult.noConfusion hu
  · intro hv
    exact ⟨{ id := st.nextUserId, username := un, password := pw, created_at := now },
      by simp [register, hfresh, hv]⟩

/-- Witness for C3: the two weak passwords are rejected with 400 at the
empty store and the strong one is accepted with 201. -/
theorem register_password_policy_witness :
    (register st0 0 "alice" "short1!").1 = .err 400 "Password must be at least 8 characters long, including at least one letter, one number, and one special character." ∧
    (register st0 0 "bob" "alllettersnouppercasenodigit").1 = .err 400 "Password must be at least 8 characters long, including at least one letter, one number, and one special character." ∧
    (∃ u, (register st0 0 "carol" "Valid1Pass!").1 = .ok 201 u) :=
  ⟨(register_password_policy st0 0 "alice" "short1!" (by decide)).2.1 (by decide),
   (register_password_policy st0 0 "bob" "alllettersnouppercasenodigit" (by decide)).2.1 (by decide),
   ((register_password_policy st0 0 "carol" "Valid1Pass!" (by decide)).1).mpr (by decide)⟩

/-- Counterexample to C4: submitting the malformed
`touch_interaction_patterns` for the existing user 1 yields the framework's
500 Internal Server Error (the `json.JSONDecodeError` is unhandled in
`DataCapture.post`), which is not a 4xx client error. -/
theorem dataCapture_bad_json_counterexample :
    (dataCapture loadsNone stA 0 1 argsBadJson).1 =
      .err 500 "Internal Server Error" ∧
    ¬ ∃ s m, (dataCapture loadsNone stA 0 1 argsBadJson).1 = .err s m ∧
        400 ≤ s ∧ s < 500 := by
  refine ⟨rfl, ?_⟩
  rintro ⟨s, m, h, h4, h5⟩
  have h0 : (HResult.err 500 "Internal Server Error" : HResult CaptureRow) =
      .err s m := by
    rw [← h]
    rfl
  injection h0 with h1 h2
  omega

/-- C4 amended: for an existing user, a data-capture submission in which
`touch_interaction_patterns` fails to decode, or decodes but `sensor_data`
fails to decode, returns 500 Internal Server Error and persists nothing:
the store is unchanged. -/
theorem dataCapture_bad_json_500 (loads : String → Option Json)
    (st : AppState) (now uid : Nat) (args : CaptureArgs)
    (hu : (st.users.find? fun u => u.id == uid).isSome = true)
    (hbad : decodeField loads args.touch_interaction_patterns = .error () ∨
      (∃ t, decodeField loads args.touch_interaction_patterns = .ok t ∧
        decodeField loads args.sensor_data = .error ())) :
    (dataCapture loads st now uid args).1 = .err 500 "Internal Server Error" ∧
    (dataCapture loads st now uid args).2 = st := by
  obtain ⟨u, hu'⟩ := Option.isSome_iff_exists.mp hu
  rcases hbad with h | ⟨t, ht, hs⟩
  · constructor <;> simp [dataCapture, hu', h]
  · constructor <;> simp [dataCapture, hu', ht, hs]

/-- Witness for the amended C4 at the concrete store and body of the
counterexample. -/
theorem dataCapture_bad_json_500_witness :
    (dataCapture loadsNone stA 0 1 argsBadJson).1 =
      .err 500 "Internal Server Error" ∧
    (dataCapture loadsNone stA 0 1 argsBadJson).2 = stA :=
  dataCapture_bad_json_500 loadsNone stA 0 1 argsBadJson (by decide) (Or.inl rfl)

/-- C5: login never changes the store; it returns 200 with exactly the
fields id, username and createdAt of a stored user whose username and
password both equal (plaintext string equality) the submitted ones when
such a user exists, and 401 Invalid credentials otherwise. -/
theorem login_exact_match (st : AppState) (un pw : String) :
    (login st un pw).2 = st ∧
    ((∃ u ∈ st.users, u.username = un ∧ u.password = pw) →
      ∃ u ∈ st.users, u.username = un ∧ u.password = pw ∧
        (login st un pw).1 =
          .ok 200 { id := u.id, username := un, createdAt := u.created_at }) ∧
    ((¬ ∃ u ∈ st.users, u.username = un ∧ u.password = pw) →
      (login st un pw).1 = .err 401 "Invalid credentials") := by
  refine ⟨?_, ?_, ?_⟩
  · cases h : st.users.find? (fun u => u.username == un && u.password == pw) <;>
      simp [login, h]
  · rintro ⟨u, hu, hun, hpw⟩
    have hsome : (st.users.find?
        (fun u => u.username == un && u.password == pw)).isSome := by
      rw [List.find?_isSome]
      exact ⟨u, hu, by simp [hun, hpw]⟩
    obtain ⟨v, hv⟩ := Option.isSome_iff_exists.mp hsome
    have hvp := List.find?_some hv
    have hvm := List.mem_of_find?_eq_some hv
    simp only [Bool.and_eq_true, beq_iff_eq] at hvp
    refine ⟨v, hvm, hvp.1, hvp.2, ?_⟩
    simp [login, hv, hvp.1]
  · intro hno
    have hnone : st.users.find?
        (fun u => u.username == un && u.password == pw) = none := by
      rw [List.find?_eq_none]
      intro x hx hpx
      simp only [Bool.and_eq_true, beq_iff_eq] at hpx
      exact hno ⟨x, hx, hpx.1, hpx.2⟩
    simp [login, hnone]

/-- Witness for C5: a wrong password for the existing username "alice"
yields 401. -/
theorem login_exact_match_witness :
    (login stA "alice" "wrongpass").1 = .err 401 "Invalid credentials" :=
  (login_exact_match stA "alice" "wrongpass").2.2 (by decide)

/-- C6: when the path-bound user id resolves to no stored user, each of
data capture, stop data capture, and data retrieval returns 404 User not
found and leaves the store unchanged. -/
theorem unknown_user_404 (loads : String → Option Json) (st : AppState)
    (now uid : Nat) (args : CaptureArgs)
    (h : st.users.find? (fun u => u.id == uid) = none) :
    dataCapture loads st now uid args = (.err 404 "User not found", st) ∧
    stopDataCapture st uid = (.err 404 "User not found", st) ∧
    getUserData st uid = (.err 404 "User not found", st) := by
  refine ⟨?_, ?_, ?_⟩ <;> simp [dataCapture, stopDataCapture, getUserData, h]

/-- Witness for C6 at the spec's example id 9999, unknown in the concrete
store. -/
theorem unknown_user_404_witness :
    dataCapture loadsNone stA 0 9999 argsBadJson =
      (.err 404 "User not found", stA) ∧
    stopDataCapture stA 9999 = (.err 404 "User not found", stA) ∧
    getUserData stA 9999 = (.err 404 "User not found", stA) :=
  unknown_user_404 loadsNone stA 0 9999 argsBadJson (by decide)

/-- Login performs no write: the store component is returned unchanged on
both branches. -/
theorem login_state (st : AppState) (un pw : String) :
    (login st un pw).2 = st := by
  cases h : st.users.find? (fun u => u.username == un && u.password == pw) <;>
    simp [login, h]

/-- Stop data capture performs no write. -/
theorem stopDataCapture_state (st : AppState) (uid : Nat) :
    (stopDataCapture st uid).2 = st := by
  cases h : st.users.find? (fun u => u.id == uid) <;> simp [stopDataCapture, h]

/-- Data retrieval performs no write. -/
theorem getUserData_state (st : AppState) (uid : Nat) :
    (getUserData st uid).2 = st := by
  cases h : st.users.find? (fun u => u.id == uid) <;> simp [getUserData, h]

/-- Registration either leaves the store unchanged (409 or 400 path) or
appends exactly the new user row; the capture table is never touched. -/
theorem register_state (st : AppState) (now : Nat) (un pw : String) :
    (register st now un pw).2 = st ∨
    ((register st now un pw).2.users = st.users ++
        [{ id := st.nextUserId, username := un, password := pw,
           created_at := now }] ∧
      (register st now un pw).2.captures = st.captures) := by
  by_cases hdup : (st.users.find? fun u => u.username == un).isSome
  · simp [register, hdup]
  · by_cases hv : is_valid_password pw
    · simp [register, hdup, hv]
    · simp [register, hdup, hv]

/-- The data-capture handler never modifies the user table. -/
theorem dataCapture_users (loads : String → Option Json) (st : AppState)
    (now uid : Nat) (args : CaptureArgs) :
    (dataCapture loads st now uid args).2.users = st.users := by
  cases hfind : st.users.find? (fun v => v.id == uid) with
  | none => simp [dataCapture, hfind]
  | some u =>
    cases ht : decodeField loads args.touch_interaction_patterns with
    | error e => cases e; simp [dataCapture, hfind, ht]
    | ok t =>
      cases hs : decodeField loads args.sensor_data with
      | error e => cases e; simp [dataCapture, hfind, ht, hs]
      | ok sv => simp [dataCapture, hfind, ht, hs]

/-- Every capture row of the post-state of the data-capture handler is
either a pre-existing row or references a pre-existing user by id. -/
theorem dataCapture_new_row_ref (loads : String → Option Json)
    (st : AppState) (now uid : Nat) (args : CaptureArgs) :
    ∀ c ∈ (dataCapture loads st now uid args).2.captures,
      c ∈ st.captures ∨ ∃ u ∈ st.users, u.id = c.user_id := by
  intro c hc
  cases hfind : st.users.find? (fun v => v.id == uid) with
  | none =>
    simp only [dataCapture, hfind] at hc
    exact Or.inl hc
  | some u =>
    cases ht : decodeField loads args.touch_interaction_patterns with
    | error e =>
      cases e
      simp only [dataCapture, hfind, ht] at hc
      exact Or.inl hc
    | ok t =>
      cases hs : decodeField loads args.sensor_data with
      | error e =>
        cases e
        simp only [dataCapture, hfind, ht, hs] at hc
        exact Or.inl hc
      | ok sv =>
        simp only [dataCapture, hfind, ht, hs, List.mem_append,
          List.mem_singleton] at hc
        rcases hc with hc | hc
        · exact Or.inl hc
        · exact Or.inr ⟨u, List.mem_of_find?_eq_some hfind, by rw [hc]⟩

/-- C7: referential integrity. Every capture row the data-capture handler
persists references a user stored at insertion time, and since no handler
ever deletes a user, referential integrity of the store is preserved by
all five handlers. -/
theorem referential_integrity (loads : String → Option Json) (st : AppState)
    (now uid : Nat) (args : CaptureArgs) (un pw un2 pw2 : String)
    (hri : RefIntegrity st) :
    (∀ c ∈ (dataCapture loads st now uid args).2.captures,
        c ∈ st.captures ∨ ∃ u ∈ st.users, u.id = c.user_id) ∧
    RefIntegrity (register st now un pw).2 ∧
    RefIntegrity (login st un2 pw2).2 ∧
    RefIntegrity (dataCapture loads st now uid args).2 ∧
    RefIntegrity (stopDataCapture st uid).2 ∧
    RefIntegrity (getUserData st uid).2 := by
  refine ⟨dataCapture_new_row_ref loads st now uid args, ?_, ?_, ?_, ?_, ?_⟩
  · intro c hc
    rcases register_state st now un pw with h | ⟨hu, hcap⟩
    · rw [h] at hc ⊢
      exact hri c hc
    · rw [hcap] at hc
      rw [hu]
      obtain ⟨u, hum, huid⟩ := hri c hc
      exact ⟨u, List.mem_append_left _ hum, huid⟩
  · rw [RefIntegrity, login_state]
    exact hri
  · intro c hc
    rw [dataCapture_users]
    rcases dataCapture_new_row_ref loads st now uid args c hc with h | h
    · exact hri c h
    · exact h
  · rw [RefIntegrity, stopDataCapture_state]
    exact hri
  · rw [RefIntegrity, getUserData_state]
    exact hri

/-- Witness for C7 at the one-user store, a registration, a login, and a
capture submission. -/
theorem referential_integrity_witness :
    (∀ c ∈ (dataCapture loadsNone stA 5 1 argsPlain).2.captures,
        c ∈ stA.captures ∨ ∃ u ∈ stA.users, u.id = c.user_id) ∧
    RefIntegrity (register stA 5 "bob" "Valid1Pass!").2 ∧
    RefIntegrity (login stA "alice" "Valid1Pass!").2 ∧
    RefIntegrity (dataCapture loadsNone stA 5 1 argsPlain).2 ∧
    RefIntegrity (stopDataCapture stA 1).2 ∧
    RefIntegrity (getUserData stA 1).2 :=
  referential_integrity loadsNone stA 5 1 argsPlain "bob" "Valid1Pass!"
    "alice" "Valid1Pass!" (by intro c hc; simp [stA] at hc)

/-- C8: the stop-data-capture handler mutates no persistent state — the
store (user table, capture table and counters) is returned unchanged on
every request — and for an existing user it returns 200 with the
acknowledgment message naming that user. -/
theorem stop_no_mutation (st : AppState) (uid : Nat) :
    (stopDataCapture st uid).2 = st ∧
    ((stopDataCapture st uid).2.users = st.users ∧
      (stopDataCapture st uid).2.captures = st.captures) ∧
    ∀ u, st.users.find? (fun v => v.id == uid) = some u →
      (stopDataCapture st uid).1 =
        .ok 200 ("Data capture stopped for user " ++ u.username) := by
  refine ⟨stopDataCapture_state st uid,
    ⟨by rw [stopDataCapture_state], by rw [stopDataCapture_state]⟩, ?_⟩
  intro u hu
  simp [stopDataCapture, hu]

/-- Witness for C8: stopping capture for the stored user `alice` changes
nothing and acknowledges her by name. -/
theorem stop_no_mutation_witness :
    (stopDataCapture stA 1).2 = stA ∧
    (stopDataCapture stA 1).1 =
      .ok 200 "Data capture stopped for user alice" :=
  ⟨(stop_no_mutation stA 1).1,
   by simpa [alice] using (stop_no_mutation stA 1).2.2 alice (by decide)⟩

/-- C9: for an existing user, data retrieval performs no write and returns
200 with exactly the capture rows whose user id is that user's id (every
owned row and no other); when the user owns no rows the list is empty, and
if a capture submission for that user then succeeds, retrieval afterwards
returns exactly the one new row, whose fields equal the submitted
values. -/
theorem getUserData_owned (st : AppState) (uid : Nat) (u : UserRow)
    (hu : st.users.find? (fun v => v.id == uid) = some u) :
    (getUserData st uid).2 = st ∧
    (getUserData st uid).1 =
      .ok 200 (st.captures.filter fun c => c.user_id == u.id) ∧
    (∀ c, c ∈ st.captures.filter (fun c => c.user_id == u.id) ↔
      (c ∈ st.captures ∧ c.user_id = u.id)) ∧
    (st.captures.filter (fun c => c.user_id == u.id) = [] →
      ∀ loads now args row st2,
        dataCapture loads st now uid args = (.ok 201 row, st2) →
        (getUserData st2 uid).1 = .ok 200 [row] ∧
        row.user_id = u.id ∧ row.latitude = args.latitude ∧
        row.longitude = args.longitude ∧ row.isp = args.isp ∧
        row.os = args.os ∧
        row.keystroke_dynamics = args.keystroke_dynamics ∧
        row.mouse_movement_patterns = args.mouse_movement_patterns) := by
  refine ⟨getUserData_state st uid, by simp [getUserData, hu], ?_, ?_⟩
  · intro c
    simp [List.mem_filter]
  · intro hemp loads now args row st2 hdc
    cases ht : decodeField loads args.touch_interaction_patterns with
    | error e =>
      cases e
      simp [dataCapture, hu, ht] at hdc
    | ok t =>
      cases hs : decodeField loads args.sensor_data with
      | error e =>
        cases e
        simp [dataCapture, hu, ht, hs] at hdc
      | ok sv =>
        simp only [dataCapture, hu, ht, hs] at hdc
        rw [Prod.mk.injEq] at hdc
        obtain ⟨hr, hst⟩ := hdc
        injection hr with hs1 hrow
        subst hrow
        subst hst
        refine ⟨?_, rfl, rfl, rfl, rfl, rfl, rfl, rfl⟩
        simp [getUserData, hu, List.filter_append, hemp]

/-- Witness for C9: retrieval for `alice` with zero captures yields the
empty list, and after one submission yields exactly the one stored row,
whose fields equal the submitted body. -/
theorem getUserData_owned_witness :
    (getUserData stA 1).1 = .ok 200 [] ∧
    (getUserData stB 1).1 = .ok 200 [rowX] ∧
    rowX.user_id = alice.id ∧
    rowX.latitude = argsPlain.latitude ∧
    rowX.longitude = argsPlain.longitude ∧
    rowX.isp = argsPlain.isp ∧
    rowX.os = argsPlain.os ∧
    rowX.keystroke_dynamics = argsPlain.keystroke_dynamics ∧
    rowX.mouse_movement_patterns = argsPlain.mouse_movement_patterns := by
  have T := getUserData_owned stA 1 alice (by decide)
  have S := T.2.2.2 (by rfl) loadsNone 5 argsPlain rowX stB (by rfl)
  exact ⟨T.2.1, S.1, S.2.1, S.2.2.1, S.2.2.2.1, S.2.2.2.2.1,
    S.2.2.2.2.2.1, S.2.2.2.2.2.2.1, S.2.2.2.2.2.2.2⟩

/-- C10: the duplicate-username check precedes password validation: a
registration whose username is already stored returns 409 — and in
particular never the 400 weak-password error — whatever the submitted
password is. -/
theorem register_conflict_before_password (st : AppState) (now : Nat)
    (un pw : String)
    (h : (st.users.find? fun u => u.username == un).isSome = true) :
    (register st now un pw).1 = .err 409 "Username already exists" ∧
    ∀ m, (register st now un pw).1 ≠ .err 400 m := by
  have h409 : (register st now un pw).1 = .err 409 "Username already exists" := by
    simp [register, h]
  refine ⟨h409, ?_⟩
  intro m hm
  rw [h409] at hm
  injection hm with h1 h2
  omega

/-- Witness for C10: re-registering "alice" with the policy-violating
password "x" still yields 409, not 400. -/
theorem register_conflict_before_password_witness :
    (register stA 0 "alice" "x").1 = .err 409 "Username already exists" ∧
    is_valid_password "x" = false ∧
    (∀ m, (register stA 0 "alice" "x").1 ≠ .err 400 m) :=
  ⟨(register_conflict_before_password stA 0 "alice" "x" (by decide)).1,
   by decide,
   (register_conflict_before_password stA 0 "alice" "x" (by decide)).2⟩
